import Mathlib

/-
Verification development for the tanuki-bot task backlog manager
(src/tanuki_bot/core: plan.py, runner.py, task_add.py, task_execute.py).

The Python sources are shallowly embedded: pure string manipulation is
translated to functions over String / List Char, JSON documents are an
explicit inductive value type, the clock (_now_iso) and the external
collaborators (LLM text provider, git subprocesses, capability probe)
are passed in as explicit parameters, and functions that raise
exceptions return Except String.
-/

namespace Tanuki

/-! ## Python string semantics helpers -/

/-- The characters Python `str.strip()` / the `\s` regex class treat as
whitespace (ASCII fragment; the sources only ever meet ASCII here). -/
def isPyWs (c : Char) : Bool :=
  c = ' ' || c = '\t' || c = '\n' || c = '\r' || c = '\x0b' || c = '\x0c'

/-- Python `str.strip()` on a character list. -/
def stripChars (l : List Char) : List Char :=
  ((l.dropWhile isPyWs).reverse.dropWhile isPyWs).reverse

/-- Python `s.strip()`. -/
def pystrip (s : String) : String :=
  String.mk (stripChars s.toList)

/-- ASCII lower-casing of one character (Python `str.lower()` restricted to
the ASCII range actually present in the sources). -/
def pyCharLower (c : Char) : Char :=
  if 'A' ≤ c && c ≤ 'Z' then Char.ofNat (c.toNat + 32) else c

/-- Python `s.lower()`. -/
def pyLower (s : String) : String :=
  String.mk (s.toList.map pyCharLower)

/-- Collapse every maximal whitespace run to a single space: the effect of
`re.sub(r"\s+", " ", s)`.  The `prevWs` flag records whether the previous
character belonged to a run that already emitted its space. -/
def collapseWsAux : Bool → List Char → List Char
  | _, [] => []
  | prevWs, c :: rest =>
    if isPyWs c then
      (if prevWs then [] else [' ']) ++ collapseWsAux true rest
    else
      c :: collapseWsAux false rest

/-- `re.sub(r"\s+", " ", s)`. -/
def collapseWs (s : String) : String :=
  String.mk (collapseWsAux false s.toList)

/-- `pat.isPrefixOf l` for `List Char`, written out so everything reduces. -/
def listPrefix : List Char → List Char → Bool
  | [], _ => true
  | _ :: _, [] => false
  | p :: ps, c :: cs => p = c && listPrefix ps cs

/-- Python `pat in s` (substring containment) on character lists. -/
def substrAux (pat : List Char) : List Char → Bool
  | [] => listPrefix pat []
  | c :: rest => listPrefix pat (c :: rest) || substrAux pat rest

/-- Python `pat in s` (substring containment). -/
def pyContains (s pat : String) : Bool :=
  substrAux pat.toList s.toList

/-- First maximal run of decimal digits in a string, as a number:
`re.search(r"(\d+)", s)` followed by `int(...)`.  `none` when the string
has no digit. -/
def firstDigitRunAux : List Char → Option Nat
  | [] => none
  | c :: rest =>
    if c.isDigit then
      some (takeDigits (c.toNat - '0'.toNat) rest)
    else
      firstDigitRunAux rest
where
  takeDigits (acc : Nat) : List Char → Nat
    | [] => acc
    | c :: rest =>
      if c.isDigit then takeDigits (acc * 10 + (c.toNat - '0'.toNat)) rest else acc

/-- `int(re.search(r"(\d+)", s).group(1))`, or `none` when no digit occurs. -/
def firstDigitRun (s : String) : Option Nat :=
  firstDigitRunAux s.toList

/-! ## JSON documents

JSON values as produced by `json.loads` / consumed by `json.dumps`.
Floating-point numbers are omitted: no claim touches them and the backlog
documents written by the program only contain ints, strings, lists,
objects, booleans and null.  Arrays and objects carry their own list
types so that all recursion over documents is structural (hence reduces
inside the kernel). -/

mutual

inductive JVal where
  | null : JVal
  | bool (b : Bool) : JVal
  | int (n : Int) : JVal
  | str (s : String) : JVal
  | arr (xs : JArr) : JVal
  | obj (kvs : JObj) : JVal

inductive JArr where
  | nil : JArr
  | cons (v : JVal) (rest : JArr) : JArr

inductive JObj where
  | nil : JObj
  | cons (k : String) (v : JVal) (rest : JObj) : JObj

end

def JArr.toList : JArr → List JVal
  | .nil => []
  | .cons v rest => v :: rest.toList

def JArr.ofList : List JVal → JArr
  | [] => .nil
  | v :: rest => .cons v (JArr.ofList rest)

/-- `d.get(key)` on a Python dict (keys emitted by `json.loads` are unique,
so first-match lookup is the dict lookup). -/
def objGet : JObj → String → Option JVal
  | .nil, _ => none
  | .cons k v rest, key => if k = key then some v else objGet rest key

/-- `d.get(key, default)`. -/
def objGetD (d : JObj) (key : String) (dflt : JVal) : JVal :=
  match objGet d key with
  | some v => v
  | none => dflt

def sq : String := String.mk [Char.ofNat 39]

mutual

/-- Python `repr` of a JSON value (used only through `str()` on non-string
values; string escaping inside container reprs is not reproduced, which is
irrelevant to every use in the sources — the results only ever feed digit
extraction, emptiness tests and opaque string fields). -/
def pyRepr : JVal → String
  | .null => "None"
  | .bool b => cond b "True" "False"
  | .int n => toString n
  | .str s => sq ++ s ++ sq
  | .arr xs => "[" ++ pyReprArr xs ++ "]"
  | .obj kvs => "\x7b" ++ pyReprObj kvs ++ "\x7d"

def pyReprArr : JArr → String
  | .nil => ""
  | .cons v .nil => pyRepr v
  | .cons v rest => pyRepr v ++ ", " ++ pyReprArr rest

def pyReprObj : JObj → String
  | .nil => ""
  | .cons k v .nil => sq ++ k ++ sq ++ ": " ++ pyRepr v
  | .cons k v rest => sq ++ k ++ sq ++ ": " ++ pyRepr v ++ ", " ++ pyReprObj rest

end

/-- Python `str(x)` for a JSON value. -/
def pyStr : JVal → String
  | .str s => s
  | v => pyRepr v

/-- Python truthiness of a JSON value. -/
def pyTruthy : JVal → Bool
  | .null => false
  | .bool b => b
  | .int n => n ≠ 0
  | .str s => s ≠ ""
  | .arr xs => match xs with | .nil => false | _ => true
  | .obj kvs => match kvs with | .nil => false | _ => true

/-! ## plan.py: normalization helpers and the Task model -/

/-- plan.py `_norm`: strip, lower-case, collapse internal whitespace. -/
def _norm (s : String) : String :=
  collapseWs (pyLower (pystrip s))

/-- plan.py `_safe_list`: a JSON list is mapped through `str`, anything
else becomes the empty list. -/
def _safe_list : Option JVal → List String
  | some (.arr xs) => xs.toList.map pyStr
  | _ => []

/-- plan.py `_clamp_priority`.  The redundant later branches of the source
are unreachable (the first three tests already cover p0..p3), so the
translation keeps the reachable ones and the final default. -/
def _clamp_priority (p : String) : String :=
  let s := _norm p
  if s = "p0" || s = "p1" then "P1"
  else if s = "p2" then "P2"
  else if s = "p3" then "P3"
  else "P2"

/-- plan.py `_clamp_status`. -/
def _clamp_status (s0 : String) : String :=
  let s := _norm s0
  if s = "todo" || s = "doing" || s = "blocked" || s = "done" || s = "skipped" then s
  else if s = "in progress" || s = "in-progress" then "doing"
  else if s = "complete" || s = "completed" then "done"
  else if s = "pending" then "todo"
  else "todo"

/-- plan.py `Task` dataclass.  `started_at`, `done_at` and `blocked_reason`
are `str | None` in the source; `Option String` here. -/
structure Task where
  id : Int
  title : String
  description : String
  status : String
  priority : String
  tags : List String
  created_at : String
  updated_at : String
  started_at : Option String
  done_at : Option String
  blocked_reason : Option String
deriving DecidableEq

/-- `None`-or-string fields as JSON values. -/
def optStr : Option String → JVal
  | none => .null
  | some s => .str s

/-- plan.py `Task.to_dict`. -/
def Task.to_dict (t : Task) : JObj :=
  .cons "id" (.int t.id) (.cons "title" (.str t.title)
    (.cons "description" (.str t.description)
    (.cons "status" (.str t.status)
    (.cons "priority" (.str t.priority)
    (.cons "tags" (.arr (JArr.ofList (t.tags.map JVal.str)))
    (.cons "created_at" (.str t.created_at)
    (.cons "updated_at" (.str t.updated_at)
    (.cons "started_at" (optStr t.started_at)
    (.cons "done_at" (optStr t.done_at)
    (.cons "blocked_reason" (optStr t.blocked_reason) .nil))))))))))

/-! ## plan.py: the task store (`_task_from_any`, load, save)

`_now_iso()` reads the clock, so the current timestamp is passed in as the
`now` argument wherever the source would call it. -/

/-- plan.py `_task_from_any`, id coercion: an `int` is taken as is
(Python `bool` is an `int` subtype, `True`/`False` count as 1/0);
otherwise the first digit run of `str(raw_id or "0")` is parsed,
defaulting to 0. -/
def coerceId (raw : Option JVal) : Int :=
  match raw with
  | some (.int n) => n
  | some (.bool b) => cond b 1 0
  | _ =>
    let raw_v : JVal := match raw with | some v => v | none => .null
    let s := if pyTruthy raw_v then pyStr raw_v else "0"
    match firstDigitRun s with
    | some n => (n : Int)
    | none => 0

/-- Coercion of the `str | None` fields: `x if x else None`, with `str`
applied to a non-string truthy JSON value (the dataclass annotates these
fields as `str | None`; non-string truthy values are read back through
`str` here, the one place the embedding commits to strings). -/
def coerceOptStr (raw : Option JVal) : Option String :=
  match raw with
  | some v => if pyTruthy v then some (pyStr v) else none
  | none => none

/-- plan.py `_task_from_any`. -/
def _task_from_any (d : JObj) (now : String) : Task :=
  let tid := coerceId (objGet d "id")
  let title := pystrip (pyStr (objGetD d "title" (.str "")))
  let description := pystrip (pyStr (objGetD d "description" (.str "")))
  let status := _clamp_status (pyStr (objGetD d "status" (.str "todo")))
  let priority := _clamp_priority (pyStr (objGetD d "priority" (.str "P2")))
  let tags := _safe_list (objGet d "tags")
  let created_at :=
    match objGet d "created_at" with
    | some v => if pyTruthy v then pyStr v else now
    | none => now
  let updated_at :=
    match objGet d "updated_at" with
    | some v => if pyTruthy v then pyStr v else created_at
    | none => created_at
  { id := tid, title := title, description := description, status := status,
    priority := priority, tags := tags, created_at := created_at,
    updated_at := updated_at,
    started_at := coerceOptStr (objGet d "started_at"),
    done_at := coerceOptStr (objGet d "done_at"),
    blocked_reason := coerceOptStr (objGet d "blocked_reason") }

/-- The in-memory payload returned by `_load_tasks_payload`. -/
structure TasksPayload where
  version : Int
  next_id : Int
  tasks : List Task
deriving DecidableEq

/-- `max((t.id for t in tasks), default=0)`: Python `max` with a default
uses the default only when the sequence is empty. -/
def maxIdOf : List Task → Int
  | [] => 0
  | t :: rest => rest.foldl (fun m u => max m u.id) t.id

/-- plan.py `_load_tasks_payload` on an already json-parsed document.
A document that is valid JSON but not an object makes the source crash on
`payload.get` (`AttributeError`); a malformed file makes `json.loads`
raise before this function runs — both are modeled as `Except.error`.
A missing file yields the default `{"tasks": []}` object, which the
caller can pass in directly. -/
def _load_tasks_payload (doc : JVal) (now : String) : Except String TasksPayload :=
  match doc with
  | .obj kvs =>
    let tasks_raw := objGetD kvs "tasks" (.arr .nil)
    let tlist : List JVal := match tasks_raw with | .arr xs => xs.toList | _ => []
    let tasks := tlist.filterMap (fun x =>
      match x with
      | .obj d => some (_task_from_any d now)
      | _ => none)
    let max_id := maxIdOf tasks
    let version : Int :=
      match objGet kvs "version" with
      | some (.int n) => n
      | some (.bool b) => cond b 1 0
      | some _ => 1
      | none => 1
    let next_id0 : Int :=
      match objGet kvs "next_id" with
      | some (.int n) => n
      | some (.bool b) => cond b 1 0
      | _ => max_id + 1
    let next_id := if next_id0 ≤ max_id then max_id + 1 else next_id0
    .ok { version := version, next_id := next_id, tasks := tasks }
  | _ => .error "AttributeError: document is not a JSON object"

/-- plan.py `_save_tasks_payload`: the complete document written to disk
(the file-system write itself and `json.dumps` are the external
boundary; `json.loads (json.dumps v) = v` for these documents). -/
def _save_tasks_payload (version next_id : Int) (tasks : List Task) : JVal :=
  .obj (.cons "version" (.int version)
    (.cons "next_id" (.int next_id)
    (.cons "tasks" (.arr (JArr.ofList (tasks.map (fun t => .obj t.to_dict)))) .nil)))

/-! ## plan.py: the reconciler merge (`plan_from_brief`, lines 415-572)

The surrounding effects of `plan_from_brief` (registry, prompt building,
LLM call, block extraction, file writes) are external; the merge itself
(lines 445-565) and the invalid-tasks-JSON fallback (lines 415-443) are
pure functions of the existing tasks, the allocation counter, the list of
candidate dicts and the clock, embedded here. -/

/-- Truthiness of a `str | None` local. -/
def optTruthy : Option String → Bool
  | some s => s ≠ ""
  | none => false

/-- plan.py `_find_match`: first existing task whose normalized title
equals the normalized candidate title. -/
def _find_match (existing : List Task) (cand_title : String) : Option Task :=
  existing.find? (fun t => _norm t.title == _norm cand_title)

/-- Membership/lookup in `by_id = {t.id: t for t in existing_tasks if t.id > 0}`:
a dict comprehension keeps the last task for a repeated positive id. -/
def by_id_lookup (existing : List Task) (tid : Int) : Option Task :=
  (existing.filter (fun t => decide (0 < t.id))).reverse.find? (fun t => t.id == tid)

/-- `str(upd.get("blocked_reason") or blocked_reason or "").strip()`
(the `x or y or ""` chain under Python truthiness, then `str` and strip). -/
def mergeBlockedReason (upd : JObj) (br0 : Option String) : String :=
  let base : String :=
    match objGet upd "blocked_reason" with
    | some v =>
      if pyTruthy v then pyStr v
      else match br0 with | some r => r | none => ""
    | none => match br0 with | some r => r | none => ""
  pystrip base

/-- plan.py `_apply_update` (lines 454-502). -/
def _apply_update (old : Task) (upd : JObj) (now : String) : Task :=
  let title0 := pystrip (match objGet upd "title" with | some v => pyStr v | none => old.title)
  let title := if title0 = "" then old.title else title0
  let description0 := pystrip (match objGet upd "description" with | some v => pyStr v | none => old.description)
  let description := if description0 = "" then old.description else description0
  let priority := _clamp_priority (match objGet upd "priority" with | some v => pyStr v | none => old.priority)
  let tags0 := _safe_list (objGet upd "tags")
  let tags := if tags0 = [] then old.tags else tags0
  let status_in : String := match objGet upd "status" with | some v => pyStr v | none => old.status
  let status_new := _clamp_status status_in
  let status_final := if status_new = old.status then old.status else status_new
  let changed := old.status ≠ status_final
  let started_at :=
    if changed ∧ status_final = "doing" ∧ ¬ optTruthy old.started_at then some now
    else if changed ∧ status_final = "done" ∧ ¬ optTruthy old.started_at then some now
    else old.started_at
  let done_at := if changed ∧ status_final = "done" then some now else old.done_at
  let blocked_reason :=
    if changed ∧ status_final = "done" then none
    else if changed ∧ status_final = "blocked" then
      let s := mergeBlockedReason upd old.blocked_reason
      if s = "" then some "Blocked" else some s
    else if changed ∧ status_final = "todo" then none
    else old.blocked_reason
  { id := old.id, title := title, description := description,
    status := status_final, priority := priority, tags := tags,
    created_at := old.created_at, updated_at := now,
    started_at := started_at, done_at := done_at,
    blocked_reason := blocked_reason }

/-- Candidate id parsing (merge loop lines 508-517): int as is (bools are
ints), explicit or implicit `None` stays `None`, anything else goes
through digit extraction of its `str`. -/
def candId (cand : JObj) : Option Int :=
  match objGet cand "id" with
  | some (.int n) => some n
  | some (.bool b) => some (cond b 1 0)
  | some .null => none
  | some v => (firstDigitRun (pyStr v)).map (fun n => (n : Int))
  | none => none

/-- New-task construction in the merge loop (lines 538-552); `title` is the
already-stripped candidate title. -/
def newTaskFromCand (cand : JObj) (title0 : String) (nid : Int) (now : String) : Task :=
  let title := if title0 = "" then "Untitled task" else title0
  let br :=
    pystrip (match objGet cand "blocked_reason" with
      | some v => if pyTruthy v then pyStr v else ""
      | none => "")
  { id := nid, title := title,
    description := pystrip (pyStr (objGetD cand "description" (.str ""))),
    status := _clamp_status (pyStr (objGetD cand "status" (.str "todo"))),
    priority := _clamp_priority (pyStr (objGetD cand "priority" (.str "P2"))),
    tags := _safe_list (objGet cand "tags"),
    created_at := now, updated_at := now,
    started_at := none, done_at := none,
    blocked_reason := if br = "" then none else some br }

/-- The mutable state of the merge loop. -/
structure MergeState where
  merged : List Task
  seen_ids : List Int
  seen_titles : List String
  next_id : Int

/-- `title = str(cand.get("title", "")).strip()` of the merge loop. -/
def candTitle (cand : JObj) : String :=
  pystrip (pyStr (objGetD cand "title" (.str "")))

/-- The id-based match attempt of the merge loop (lines 522-527). -/
def idMatchOf (existing : List Task) (cand : JObj) : Option Task :=
  match candId cand with
  | some n => by_id_lookup existing n
  | none => none

/-- `_find_match(existing_tasks, title) if title else None` (line 530). -/
def titleMatchOf (existing : List Task) (title : String) : Option Task :=
  if title = "" then none else _find_match existing title

/-- Appending a matched-and-updated task: the merge loop records the
matched id, the updated task and its normalized title. -/
def appendUpdated (st : MergeState) (matchId : Int) (updated : Task) : MergeState :=
  { merged := st.merged ++ [updated],
    seen_ids := st.seen_ids ++ [matchId],
    seen_titles := st.seen_titles ++ [_norm updated.title],
    next_id := st.next_id }

/-- Appending a genuinely new task: the merge loop allocates the current
`next_id` and increments it. -/
def appendNew (st : MergeState) (nt : Task) : MergeState :=
  { merged := st.merged ++ [nt],
    seen_ids := st.seen_ids ++ [nt.id],
    seen_titles := st.seen_titles ++ [_norm nt.title],
    next_id := st.next_id + 1 }

/-- One iteration of the merge loop (lines 507-556). -/
def merge_step (existing : List Task) (now : String) (st : MergeState) (cand : JObj) : MergeState :=
  match idMatchOf existing cand with
  | some old => appendUpdated st old.id (_apply_update old cand now)
  | none =>
    match titleMatchOf existing (candTitle cand) with
    | some m =>
      if (by_id_lookup existing m.id).isSome then
        appendUpdated st m.id (_apply_update m cand now)
      else
        appendNew st (newTaskFromCand cand (candTitle cand) st.next_id now)
    | none =>
      appendNew st (newTaskFromCand cand (candTitle cand) st.next_id now)

/-- The reconciler merge of `plan_from_brief` (lines 449-565): run the
merge loop over the generated candidates, then carry over every existing
task that was neither id-matched nor title-shadowed. -/
def plan_from_brief_merge (existing : List Task) (next_id : Int)
    (cands : List JObj) (now : String) : List Task × Int :=
  let st := cands.foldl (merge_step existing now)
    { merged := [], seen_ids := [], seen_titles := [], next_id := next_id }
  let leftover := existing.filter (fun t =>
    decide (t.id ∉ st.seen_ids) && decide (_norm t.title ∉ st.seen_titles))
  (st.merged ++ leftover, st.next_id)

/-- The synthetic blocking task of the invalid-tasks-JSON fallback
(lines 420-435). -/
def fixPlanTask (nid : Int) (now : String) : Task :=
  { id := nid, title := "Fix plan output",
    description := "The model did not return valid tasks JSON. Check billing/quota, then re-run `tanuki plan`.",
    status := "blocked", priority := "P1", tags := ["planning"],
    created_at := now, updated_at := now,
    started_at := none, done_at := none,
    blocked_reason := some "Invalid tasks JSON from model" }

/-- `plan_from_brief` when the model returned no usable tasks JSON
(lines 416-443): keep the backlog, append one deduplicated blocking task. -/
def plan_from_brief_fallback (existing : List Task) (next_id : Int) (now : String) :
    List Task × Int :=
  match _find_match existing "Fix plan output" with
  | some _ => (existing, next_id)
  | none => (existing ++ [fixPlanTask next_id now], next_id + 1)

/-! ## task_add.py: the append-only incremental variant -/

/-- The new-task loop of `add_tasks_from_brief` (task_add.py lines
117-143): `titles` is the running `existing_titles` set. -/
def add_tasks_loop (titles : List String) (next_id : Int) (now : String) :
    List JObj → List Task × Int
  | [] => ([], next_id)
  | cand :: rest =>
    let title0 := pystrip (pyStr (objGetD cand "title" (.str "")))
    let title := if title0 = "" then "Untitled task" else title0
    let nt := _norm title
    if nt ∈ titles then add_tasks_loop titles next_id now rest
    else
      let t : Task :=
        { id := next_id, title := title,
          description := pystrip (pyStr (objGetD cand "description" (.str ""))),
          status := "todo",
          priority := _clamp_priority (pyStr (objGetD cand "priority" (.str "P2"))),
          tags := _safe_list (objGet cand "tags"),
          created_at := now, updated_at := now,
          started_at := none, done_at := none, blocked_reason := none }
      let res := add_tasks_loop (titles ++ [nt]) (next_id + 1) now rest
      (t :: res.1, res.2)

/-- `add_tasks_from_brief` after the provider returned a usable candidate
list (task_add.py lines 117-150): the saved backlog is the existing tasks
followed by the freshly constructed ones (when no new task survives the
dedupe the file is left as is, which coincides with appending nothing). -/
def add_tasks_from_brief_merge (existing : List Task) (next_id : Int)
    (cands : List JObj) (now : String) : List Task × Int :=
  let res := add_tasks_loop (existing.map (fun t => _norm t.title)) next_id now cands
  (existing ++ res.1, res.2)

/-! ## runner.py: task selection and the auto-unblock classifier -/

/-- `prio_rank.get(t.priority, 9)` with `prio_rank = {"P1": 1, "P2": 2, "P3": 3}`. -/
def rankOf (p : String) : Nat :=
  if p = "P1" then 1 else if p = "P2" then 2 else if p = "P3" then 3 else 9

/-- The sort key ordering of `_select_next_task`: Python tuple comparison
on `(prio_rank.get(t.priority, 9), t.id)`. -/
def taskLE (t u : Task) : Prop :=
  rankOf t.priority < rankOf u.priority ∨
    (rankOf t.priority = rankOf u.priority ∧ t.id ≤ u.id)

instance : DecidableRel taskLE := fun t u => by unfold taskLE; infer_instance

instance : IsTotal Task taskLE where
  total t u := by
    unfold taskLE
    rcases Nat.lt_trichotomy (rankOf t.priority) (rankOf u.priority) with h | h | h
    · exact Or.inl (Or.inl h)
    · rcases Int.le_total t.id u.id with h2 | h2
      · exact Or.inl (Or.inr ⟨h, h2⟩)
      · exact Or.inr (Or.inr ⟨h.symm, h2⟩)
    · exact Or.inr (Or.inl h)

instance : IsTrans Task taskLE where
  trans a b c hab hbc := by
    rcases hab with h1 | ⟨h1, h1'⟩ <;> rcases hbc with h2 | ⟨h2, h2'⟩
    · exact Or.inl (h1.trans h2)
    · exact Or.inl (h2 ▸ h1)
    · exact Or.inl (h1 ▸ h2)
    · exact Or.inr ⟨h1.trans h2, h1'.trans h2'⟩

/-- runner.py `_select_next_task` (lines 278-282): filter the `todo`
tasks, stable-sort them by `(priority_rank, id)`, return the head.
Python `list.sort` is a stable sort; `List.insertionSort` is stable for
the same key ordering, and stable sorts agree. -/
def _select_next_task (tasks : List Task) : Option Task :=
  ((tasks.filter (fun t => t.status == "todo")).insertionSort taskLE).head?

/-- runner.py `transient_markers` (lines 405-425), verbatim. -/
def transient_markers : List String :=
  ["not a git repository",
   "no such file or directory: .git",
   "runner is wired",
   "apply_task is not implemented",
   "cannot import tanuki_bot.core.llm.chat",
   "cannot import tanuki_bot.core.llm",
   "missing openai api key",
   "openai authentication failed",
   "quota",
   "billing",
   "insufficient_quota",
   "429",
   "did not return a recognizable unified diff",
   "corrupt patch",
   "git apply --check failed",
   "git apply failed",
   "pathspec",
   "no changes to commit",
   "task produced no file changes"]

/-- runner.py `_should_unblock` (lines 400-426). -/
def _should_unblock (reason : Option String) : Bool :=
  match reason with
  | none => false
  | some reason =>
    if reason = "" then false
    else
      let r := pyLower reason
      transient_markers.any (fun m => pyContains r m)

/-- The guard `t.blocked_reason and "llm.chat" in t.blocked_reason.lower()`
(runner.py line 438): the failure is attributed to the missing
code-generation capability. -/
def hasLlmChatMarker : Option String → Bool
  | some r => r ≠ "" && pyContains (pyLower r) "llm.chat"
  | none => false

/-- runner.py `_auto_unblock_tasks` (lines 429-462): `can_llm` is the
result of the `_llm_is_available()` capability probe, an external input. -/
def _auto_unblock_tasks (can_llm : Bool) (now : String) : List Task → List Task × Nat
  | [] => ([], 0)
  | t :: rest =>
    if t.status == "blocked" && _should_unblock t.blocked_reason then
      if hasLlmChatMarker t.blocked_reason && !can_llm then
        (t :: (_auto_unblock_tasks can_llm now rest).1,
         (_auto_unblock_tasks can_llm now rest).2)
      else
        ({ t with status := "todo", updated_at := now, blocked_reason := none } ::
           (_auto_unblock_tasks can_llm now rest).1,
         (_auto_unblock_tasks can_llm now rest).2 + 1)
    else
      (t :: (_auto_unblock_tasks can_llm now rest).1,
       (_auto_unblock_tasks can_llm now rest).2)

/-! ## task_execute.py: diff extraction and the apply engine

The regexes of `_strip_code_fences` and `_extract_unified_diff` are
hand-rolled here as backtracking-complete matchers over `List Char`
(existence of a split is exactly what the Python engine decides for
these concatenation-only patterns). -/

/-- One attempted match of ````(?:diff|patch)?\s*(.*?)``` ` at the head of
`l` (DOTALL, IGNORECASE): the optional tag cannot overlap a closing
fence, the greedy `\s*` run cannot contain a backtick, so the group is
the text from the end of the whitespace run to the first closing fence. -/
def fenceMatchHere (l : List Char) : Option (List Char) :=
  if listPrefix "```".toList l then
    let after := l.drop 3
    let afterTag :=
      if listPrefix "diff".toList (after.map pyCharLower) then after.drop 4
      else if listPrefix "patch".toList (after.map pyCharLower) then after.drop 5
      else after
    findCloseAux (afterTag.dropWhile isPyWs)
  else none
where
  findCloseAux : List Char → Option (List Char)
    | [] => none
    | c :: rest =>
      if listPrefix "```".toList (c :: rest) then some []
      else match findCloseAux rest with
        | some content => some (c :: content)
        | none => none

/-- Leftmost starting position for the fence regex (`re.search`). -/
def stripFencesAux : List Char → Option (List Char)
  | [] => none
  | c :: rest =>
    match fenceMatchHere (c :: rest) with
    | some content => some content
    | none => stripFencesAux rest

/-- task_execute.py `_strip_code_fences`. -/
def _strip_code_fences (text : String) : String :=
  match stripFencesAux text.toList with
  | some content => pystrip (String.mk content)
  | none => pystrip text

/-- `text.replace("\r\n", "\n").replace("\r", "\n")`. -/
def normChars : List Char → List Char
  | [] => []
  | '\r' :: '\n' :: rest => '\n' :: normChars rest
  | '\r' :: rest => '\n' :: normChars rest
  | c :: rest => c :: normChars rest

/-- task_execute.py `_normalize`. -/
def _normalize (text : String) : String :=
  let l := normChars text.toList
  String.mk (if l.getLast? = some '\n' then l else l ++ ['\n'])

/-- Python `splitlines(True)` restricted to `\n` separators (the inputs of
`_trim_trailing_noise` already went through `_normalize`, which removed
every `\r`). -/
def splitKeepNlAux (cur : List Char) : List Char → List (List Char)
  | [] => if cur = [] then [] else [cur.reverse]
  | c :: rest =>
    if c = '\n' then (cur.reverse ++ ['\n']) :: splitKeepNlAux [] rest
    else splitKeepNlAux (c :: cur) rest

/-- The line loop of `_trim_trailing_noise`. -/
def trimNoiseLoop (started : Bool) : List (List Char) → List (List Char)
  | [] => []
  | line :: rest =>
    if !started then
      if listPrefix "diff --git".toList line || listPrefix "--- ".toList line then
        line :: trimNoiseLoop true rest
      else trimNoiseLoop false rest
    else
      let s := stripChars line
      if s = "```".toList || s = "```diff".toList || s = "```patch".toList then []
      else if s = "---".toList then []
      else line :: trimNoiseLoop true rest

/-- task_execute.py `_trim_trailing_noise`. -/
def _trim_trailing_noise (diff_text : String) : String :=
  let out := trimNoiseLoop false (splitKeepNlAux [] diff_text.toList)
  pystrip (String.mk out.flatten) ++ "\n"

/-- `s.find(pat)`: index of the first occurrence, `none` for Python -1. -/
def findSubIdxAux (pat : List Char) : List Char → Option Nat
  | [] => if listPrefix pat [] then some 0 else none
  | c :: rest =>
    if listPrefix pat (c :: rest) then some 0
    else (findSubIdxAux pat rest).map (· + 1)

/-- `\s*` then continuation (with backtracking). -/
def wsThen (k : List Char → Bool) : List Char → Bool
  | [] => k []
  | c :: rest => k (c :: rest) || (isPyWs c && wsThen k rest)

/-- `\s+` then continuation. -/
def wsPlusThen (k : List Char → Bool) : List Char → Bool
  | [] => false
  | c :: rest => isPyWs c && wsThen k rest

/-- `.*` (no DOTALL) then continuation. -/
def dotThen (k : List Char → Bool) : List Char → Bool
  | [] => k []
  | c :: rest => k (c :: rest) || (c ≠ '\n' && dotThen k rest)

/-- `.+` then continuation. -/
def dotPlusThen (k : List Char → Bool) : List Char → Bool
  | [] => false
  | c :: rest => c ≠ '\n' && dotThen k rest

/-- A literal then continuation. -/
def litThen (pat : List Char) (k : List Char → Bool) (l : List Char) : Bool :=
  listPrefix pat l && k (l.drop pat.length)

/-- The part of `^---\s+.+\n\+\+\+\s+.+\n` after the leading `---`. -/
def dashPlusTail : List Char → Bool :=
  wsPlusThen (dotPlusThen (litThen "\n+++".toList
    (wsPlusThen (dotPlusThen (litThen "\n".toList (fun _ => true))))))

/-- `re.search` of the `---`/`+++` header pattern with `re.MULTILINE`:
candidate positions are the string start and every position after a
newline; the result is `m.start()`. -/
def findDashPlusAux : Bool → List Char → Option Nat
  | _, [] => none
  | atStart, c :: rest =>
    if atStart && listPrefix "---".toList (c :: rest) && dashPlusTail ((c :: rest).drop 3) then
      some 0
    else (findDashPlusAux (c = '\n') rest).map (· + 1)

/-- task_execute.py `_extract_unified_diff`; the raised
`TaskExecuteError` is the `Except.error` case. -/
def _extract_unified_diff (text : String) : Except String String :=
  let raw := _normalize (_strip_code_fences text)
  let rawL := raw.toList
  match findSubIdxAux "diff --git".toList rawL with
  | some idx => .ok (_trim_trailing_noise (String.mk (rawL.drop idx)))
  | none =>
    match findDashPlusAux true rawL with
    | some idx => .ok (_trim_trailing_noise (String.mk (rawL.drop idx)))
    | none =>
      let preview := String.mk ((rawL.take 500).flatMap
        (fun c => if c = '\n' then ['\\', 'n'] else [c]))
      .error ("Model did not return a recognizable unified diff. First 500 chars: " ++ preview)

/-- task_execute.py `_is_corrupt_patch_error`. -/
def _is_corrupt_patch_error (msg : String) : Bool :=
  let m := pyLower msg
  pyContains m "corrupt patch" || pyContains m "patch failed" ||
    pyContains m "git apply --check failed" || pyContains m "git apply failed"

/-- Outcome of one `subprocess.run` invocation. -/
structure ProcResult where
  returncode : Int
  stdout : String
  stderr : String

/-- task_execute.py `_git_apply`: `check` and `run` are the external
`git apply --check` / `git apply` subprocesses, as functions of the diff
fed to their stdin. -/
def _git_apply (check run : String → ProcResult) (diff_text : String) :
    Except String Unit :=
  let check_p := check diff_text
  if check_p.returncode ≠ 0 then
    .error ("git apply --check failed.\n\nSTDOUT:\n" ++ check_p.stdout ++
      "\n\nSTDERR:\n" ++ check_p.stderr)
  else
    let apply_p := run diff_text
    if apply_p.returncode ≠ 0 then
      .error ("git apply failed.\n\nSTDOUT:\n" ++ apply_p.stdout ++
        "\n\nSTDERR:\n" ++ apply_p.stderr)
    else .ok ()

/-- task_execute.py `_build_repair_prompt`. -/
def _build_repair_prompt (prev_diff error : String) : String :=
  let prev := if prev_diff.toList.length ≤ 12000 then prev_diff
    else String.mk (prev_diff.toList.take 12000) ++ "\n\n(TRUNCATED)\n"
  let err := if error.toList.length ≤ 2000 then error
    else String.mk (error.toList.take 2000) ++ "\n(TRUNCATED)\n"
  "The previous diff was invalid and could not be applied with `git apply`.\n" ++
    "Return ONLY a corrected unified diff that applies cleanly.\n" ++
    "No explanations.\n\n" ++
    "git apply error:\n" ++ err ++ "\n\n" ++
    "Previous diff to repair:\n" ++ prev ++ "\n"

/-- task_execute.py `_call_llm` around one provider response (`resp` is
`Except.error` when the provider call itself raised). -/
def _call_llm (resp : Except String String) : Except String String :=
  match resp with
  | .error e => .error e
  | .ok r => if pystrip r = "" then .error "LLM returned empty response." else .ok r

/-- task_execute.py `ApplyResult`. -/
structure ApplyResult where
  ok : Bool
  applied : Bool
  notes : String
deriving DecidableEq

/-- Observable trace of one `apply_task` run: its result plus how many
provider calls and `_git_apply` invocations happened, and the outcome of
each `_git_apply` attempt that was reached. -/
structure ApplyTrace where
  result : Except String ApplyResult
  llm_calls : Nat
  apply_calls : Nat
  first_apply : Option (Except String Unit)
  second_apply : Option (Except String Unit)

/-- task_execute.py `apply_task` (lines 232-271), instrumented.  The
text provider is `llm n prompt` for the n-th call (1 = initial diff
request, 2 = repair request); registry lookup, debug-file writes and
prompt assembly from the repository context are external, so the first
prompt is an input.  Only the first `_git_apply` failure sits inside the
`try`, and the repair is attempted just when that failure text matches
`_is_corrupt_patch_error`; every other error propagates. -/
def apply_task (llm : Nat → String → Except String String)
    (check run : String → ProcResult) (prompt : String) : ApplyTrace :=
  match _call_llm (llm 1 prompt) with
  | .error e =>
    { result := .error e, llm_calls := 1, apply_calls := 0,
      first_apply := none, second_apply := none }
  | .ok raw1 =>
    match _extract_unified_diff raw1 with
    | .error e =>
      { result := .error e, llm_calls := 1, apply_calls := 0,
        first_apply := none, second_apply := none }
    | .ok diff1 =>
      match _git_apply check run diff1 with
      | .ok _ =>
        { result := .ok (ApplyResult.mk true true "Diff applied successfully (attempt 1)."),
          llm_calls := 1, apply_calls := 1,
          first_apply := some (.ok ()), second_apply := none }
      | .error e =>
        if !(_is_corrupt_patch_error e) then
          { result := .error e, llm_calls := 1, apply_calls := 1,
            first_apply := some (.error e), second_apply := none }
        else
          match _call_llm (llm 2 (_build_repair_prompt diff1 e)) with
          | .error e2 =>
            { result := .error e2, llm_calls := 2, apply_calls := 1,
              first_apply := some (.error e), second_apply := none }
          | .ok raw2 =>
            match _extract_unified_diff raw2 with
            | .error e2 =>
              { result := .error e2, llm_calls := 2, apply_calls := 1,
                first_apply := some (.error e), second_apply := none }
            | .ok diff2 =>
              match _git_apply check run diff2 with
              | .ok _ =>
                { result := .ok (ApplyResult.mk true true "Diff applied successfully (attempt 2)."),
                  llm_calls := 2, apply_calls := 2,
                  first_apply := some (.error e), second_apply := some (.ok ()) }
              | .error e2 =>
                { result := .error e2, llm_calls := 2, apply_calls := 2,
                  first_apply := some (.error e), second_apply := some (.error e2) }

/-! ## Shared infrastructure for the theorems -/

instance {ε α : Type} [DecidableEq ε] [DecidableEq α] : DecidableEq (Except ε α) := fun x y =>
  match x, y with
  | .ok a, .ok b => decidable_of_iff (a = b) (by simp)
  | .ok _, .error _ => .isFalse (by simp)
  | .error _, .ok _ => .isFalse (by simp)
  | .error e, .error f => decidable_of_iff (e = f) (by simp)

theorem taskLE_refl (t : Task) : taskLE t t :=
  Or.inr ⟨rfl, le_refl _⟩

/-! ## Claim C1 -/

def c1_old : Task :=
  { id := 1, title := "Ship the feature", description := "d", status := "done",
    priority := "P2", tags := [], created_at := "T0", updated_at := "T0",
    started_at := some "T0", done_at := some "T0", blocked_reason := none }

/-- Claim C1 (code bug, evaluated at the failing input): the proposal
status "wip" is not one of the statuses `_clamp_status` recognizes, yet
`_apply_update` adopts its clamped value "todo" and reverts a done task
to todo — the claim (and the inline comment "keep old unless model
explicitly gives a valid status") say an invalid status must leave the
existing status unchanged. -/
theorem c1_invalid_status_reverts_done :
    ("wip" ∉ ["todo", "doing", "blocked", "done", "skipped", "in progress",
      "in-progress", "complete", "completed", "pending"])
    ∧ c1_old.status = "done"
    ∧ _clamp_status "wip" = "todo"
    ∧ (_apply_update c1_old (JObj.cons "status" (JVal.str "wip") JObj.nil) "T1").status
        = "todo" := by
  decide

/-! ## Claim C7 -/

/-- Claim C7: `_select_next_task` is a function of the task list that
returns a `todo` task minimizing `(priority_rank, id)` (it belongs to the
list, has status todo, and its key is less-or-equal to the key of every
todo task), and returns `none` exactly when the list has no todo task. -/
theorem select_next_task_spec (tasks : List Task) :
    (∀ t, _select_next_task tasks = some t →
      t ∈ tasks ∧ t.status = "todo" ∧ ∀ u ∈ tasks, u.status = "todo" → taskLE t u)
    ∧ (_select_next_task tasks = none ↔ ∀ t ∈ tasks, t.status ≠ "todo") := by
  constructor
  · intro t ht
    unfold _select_next_task at ht
    have hsorted := List.sorted_insertionSort taskLE
      (tasks.filter (fun x => x.status == "todo"))
    have hperm := List.perm_insertionSort taskLE
      (tasks.filter (fun x => x.status == "todo"))
    rcases hcase : (tasks.filter (fun x => x.status == "todo")).insertionSort taskLE
      with _ | ⟨a, rest⟩
    · rw [hcase] at ht; simp at ht
    · rw [hcase] at ht hsorted hperm
      simp only [List.head?_cons, Option.some.injEq] at ht
      subst ht
      have hmem_l : a ∈ tasks.filter (fun x => x.status == "todo") :=
        hperm.subset (List.mem_cons_self _ _)
      rw [List.mem_filter] at hmem_l
      refine ⟨hmem_l.1, by simpa using hmem_l.2, ?_⟩
      intro u hu hustat
      have hu_s : u ∈ a :: rest :=
        hperm.symm.subset (List.mem_filter.2 ⟨hu, by simpa⟩)
      rcases List.mem_cons.1 hu_s with rfl | hu_rest
      · exact taskLE_refl u
      · exact List.rel_of_sorted_cons hsorted u hu_rest
  · unfold _select_next_task
    have hperm := List.perm_insertionSort taskLE
      (tasks.filter (fun x => x.status == "todo"))
    constructor
    · intro h t ht hstat
      have hnil : (tasks.filter (fun x => x.status == "todo")).insertionSort taskLE = [] := by
        cases hcase : (tasks.filter (fun x => x.status == "todo")).insertionSort taskLE with
        | nil => rfl
        | cons a rest => rw [hcase] at h; simp at h
      rw [hnil] at hperm
      have hfilnil : tasks.filter (fun x => x.status == "todo") = [] := hperm.symm.eq_nil
      have : t ∈ ([] : List Task) := hfilnil ▸ List.mem_filter.2 ⟨ht, by simpa⟩
      simp at this
    · intro h
      have hfilnil : tasks.filter (fun x => x.status == "todo") = [] := by
        rw [List.filter_eq_nil_iff]
        intro t ht
        simpa using h t ht
      rw [hfilnil]
      rfl

def c7_t1 : Task :=
  { id := 1, title := "one", description := "", status := "done", priority := "P2",
    tags := [], created_at := "T", updated_at := "T", started_at := some "T",
    done_at := some "T", blocked_reason := none }

def c7_t2 : Task :=
  { c7_t1 with id := 2, title := "two", status := "todo", priority := "P1", done_at := none }

def c7_t3 : Task :=
  { c7_t1 with id := 3, title := "three", status := "todo", priority := "P2", done_at := none }

/-- Claim C7 witness: the scenario backlog
`[{id 1, done}, {id 2, todo, P1}, {id 3, todo, P2}]` selects id 2, and by
the theorem that selection is a todo task with minimal key. -/
theorem select_next_task_spec_witness :
    (_select_next_task [c7_t1, c7_t2, c7_t3]).map Task.id = some 2
    ∧ c7_t2 ∈ [c7_t1, c7_t2, c7_t3] ∧ c7_t2.status = "todo"
    ∧ ∀ u ∈ [c7_t1, c7_t2, c7_t3], u.status = "todo" → taskLE c7_t2 u := by
  have h := (select_next_task_spec [c7_t1, c7_t2, c7_t3]).1 c7_t2 (by decide)
  exact ⟨by decide, h.1, h.2.1, h.2.2⟩

/-! ## Claim C8 -/

/-- The pointwise contract of one classifier pass relating an input task
to the output task at the same position. -/
def UnblockRel (can_llm : Bool) (t u : Task) : Prop :=
  (t.status = "blocked" → _should_unblock t.blocked_reason = true →
    (hasLlmChatMarker t.blocked_reason = false ∨ can_llm = true) →
      u.status = "todo" ∧ u.blocked_reason = none ∧ u.id = t.id ∧ u.title = t.title
        ∧ u.priority = t.priority ∧ u.started_at = t.started_at ∧ u.done_at = t.done_at)
  ∧ (t.status = "blocked" → _should_unblock t.blocked_reason = false → u = t)
  ∧ (hasLlmChatMarker t.blocked_reason = true → can_llm = false → u = t)
  ∧ (t.status ≠ "blocked" → u = t)

/-- Claim C8: one `_auto_unblock_tasks` pass maps every blocked task whose
reason matches a transient marker to `todo` with the reason cleared
(keeping id/title/priority/progress timestamps), leaves every blocked
task with an unmatched reason untouched (hence blocked), and leaves a
task whose reason carries the missing-code-generation marker ("llm.chat")
untouched whenever the capability probe is negative. -/
theorem auto_unblock_tasks_spec (tasks : List Task) (can_llm : Bool) (now : String) :
    List.Forall₂ (UnblockRel can_llm) tasks (_auto_unblock_tasks can_llm now tasks).1 := by
  induction tasks with
  | nil => exact List.Forall₂.nil
  | cons t rest ih =>
    unfold _auto_unblock_tasks
    by_cases h1 : (t.status == "blocked" && _should_unblock t.blocked_reason) = true
    · rw [if_pos h1]
      simp only [Bool.and_eq_true, beq_iff_eq] at h1
      by_cases h2 : (hasLlmChatMarker t.blocked_reason && !can_llm) = true
      · rw [if_pos h2]
        simp only [Bool.and_eq_true, Bool.not_eq_true'] at h2
        refine List.Forall₂.cons ?_ ih
        refine ⟨?_, ?_, fun _ _ => rfl, fun h3 => absurd h1.1 h3⟩
        · intro _ _ h3
          rcases h3 with h3 | h3
          · simp [h2.1] at h3
          · simp [h2.2] at h3
        · intro _ h3
          simp [h1.2] at h3
      · rw [if_neg h2]
        refine List.Forall₂.cons ?_ ih
        refine ⟨fun _ _ _ => ⟨rfl, rfl, rfl, rfl, rfl, rfl, rfl⟩, ?_, ?_, ?_⟩
        · intro _ h3
          simp [h1.2] at h3
        · intro h3 h4
          refine absurd ?_ h2
          rw [h3, h4]
          rfl
        · intro h3
          exact absurd h1.1 h3
    · rw [if_neg h1]
      refine List.Forall₂.cons ?_ ih
      refine ⟨?_, fun _ _ => rfl, fun _ _ => rfl, fun _ => rfl⟩
      intro h3 h4 _
      refine absurd ?_ h1
      rw [h3, h4]
      simp

def c8_quota : Task :=
  { id := 4, title := "deploy", description := "", status := "blocked", priority := "P2",
    tags := [], created_at := "T", updated_at := "T", started_at := none,
    done_at := none, blocked_reason := some "OpenAI said: insufficient QUOTA for this org" }

def c8_other : Task :=
  { id := 5, title := "design", description := "", status := "blocked", priority := "P2",
    tags := [], created_at := "T", updated_at := "T", started_at := none,
    done_at := none, blocked_reason := some "waiting on a design decision" }

def c8_quota_reset : Task :=
  { c8_quota with status := "todo", updated_at := "N", blocked_reason := none }

/-- Claim C8 witness: with the capability probe negative, a blocked task
whose reason contains "QUOTA" (matched case-insensitively against the
"quota" marker) is reset to todo with the reason cleared, while the
blocked task with an unrelated reason comes out untouched. -/
theorem auto_unblock_tasks_spec_witness :
    c8_quota.status = "blocked"
    ∧ pyContains (pyLower "OpenAI said: insufficient QUOTA for this org") "quota" = true
    ∧ (_auto_unblock_tasks false "N" [c8_quota, c8_other]).1 = [c8_quota_reset, c8_other]
    ∧ c8_quota_reset.status = "todo" ∧ c8_quota_reset.blocked_reason = none
    ∧ c8_other.status = "blocked" := by
  have h := auto_unblock_tasks_spec [c8_quota, c8_other] false "N"
  have hout : (_auto_unblock_tasks false "N" [c8_quota, c8_other]).1
      = [c8_quota_reset, c8_other] := by decide
  rw [hout] at h
  rcases h with _ | ⟨h1, _⟩
  unfold UnblockRel at h1
  have hq := h1.1 (by decide) (by decide) (Or.inl (by decide))
  exact ⟨by decide, by decide, hout, hq.1, hq.2.1, by decide⟩

/-! ## Claim C10 -/

theorem range_map_succ (n : Nat) (a : Int) :
    (List.range (n + 1)).map (fun k : Nat => a + (k : Int))
      = a :: (List.range n).map (fun k : Nat => (a + 1) + (k : Int)) := by
  rw [List.range_succ_eq_map, List.map_cons, List.map_map]
  refine congrArg₂ List.cons (by simp) (List.map_congr_left fun k _ => ?_)
  simp only [Function.comp_apply, Nat.succ_eq_add_one]
  push_cast
  ring

theorem add_tasks_loop_spec (now : String) (cands : List JObj) :
    ∀ (titles : List String) (n0 : Int),
      (∀ t ∈ (add_tasks_loop titles n0 now cands).1,
        t.status = "todo" ∧ t.blocked_reason = none ∧ t.started_at = none
          ∧ t.done_at = none ∧ _norm t.title ∉ titles)
      ∧ (add_tasks_loop titles n0 now cands).1.map Task.id
          = (List.range (add_tasks_loop titles n0 now cands).1.length).map
              (fun k : Nat => n0 + (k : Int))
      ∧ (add_tasks_loop titles n0 now cands).2
          = n0 + ((add_tasks_loop titles n0 now cands).1.length : Int) := by
  induction cands with
  | nil => intro titles n0; refine ⟨by simp [add_tasks_loop], by simp [add_tasks_loop], by simp [add_tasks_loop]⟩
  | cons cand rest ih =>
    intro titles n0
    unfold add_tasks_loop
    by_cases hdup : _norm (if pystrip (pyStr (objGetD cand "title" (.str ""))) = ""
        then "Untitled task" else pystrip (pyStr (objGetD cand "title" (.str "")))) ∈ titles
    · rw [if_pos hdup]
      exact ih titles n0
    · rw [if_neg hdup]
      obtain ⟨ih1, ih2, ih3⟩ := ih (titles ++
        [_norm (if pystrip (pyStr (objGetD cand "title" (.str ""))) = ""
          then "Untitled task" else pystrip (pyStr (objGetD cand "title" (.str ""))))]) (n0 + 1)
      refine ⟨?_, ?_, ?_⟩
      · intro t ht
        rcases List.mem_cons.1 ht with rfl | ht
        · exact ⟨rfl, rfl, rfl, rfl, hdup⟩
        · obtain ⟨h1, h2, h3, h4, h5⟩ := ih1 t ht
          refine ⟨h1, h2, h3, h4, fun hmem => h5 (List.mem_append_left _ hmem)⟩
      · dsimp only
        rw [List.map_cons, List.length_cons, range_map_succ]
        exact congrArg₂ List.cons rfl ih2
      · dsimp only
        rw [ih3, List.length_cons]
        push_cast
        ring

/-- Claim C10: every task appended by the incremental add-tasks operation
has status todo, no blocked reason, no started/done timestamps, a fresh
id from the successively incremented counter (ids are exactly
`next_id, next_id+1, ...` in order, whatever ids or statuses the
proposals carried), its normalized title does not collide with any
existing title (colliding proposals are skipped), and the saved backlog
is the existing tasks followed by exactly these new tasks. -/
theorem add_tasks_from_brief_spec (existing : List Task) (n0 : Int)
    (cands : List JObj) (now : String) :
    (∀ t ∈ (add_tasks_loop (existing.map fun x => _norm x.title) n0 now cands).1,
      t.status = "todo" ∧ t.blocked_reason = none ∧ t.started_at = none
        ∧ t.done_at = none ∧ _norm t.title ∉ existing.map fun x => _norm x.title)
    ∧ (add_tasks_loop (existing.map fun x => _norm x.title) n0 now cands).1.map Task.id
        = (List.range
            (add_tasks_loop (existing.map fun x => _norm x.title) n0 now cands).1.length).map
            (fun k : Nat => n0 + (k : Int))
    ∧ (add_tasks_loop (existing.map fun x => _norm x.title) n0 now cands).2
        = n0 + ((add_tasks_loop (existing.map fun x => _norm x.title) n0 now cands).1.length : Int)
    ∧ (add_tasks_from_brief_merge existing n0 cands now).1
        = existing ++ (add_tasks_loop (existing.map fun x => _norm x.title) n0 now cands).1 := by
  obtain ⟨h1, h2, h3⟩ := add_tasks_loop_spec now cands (existing.map fun x => _norm x.title) n0
  exact ⟨h1, h2, h3, rfl⟩

def c10_tA : Task :=
  { id := 1, title := "Alpha", description := "", status := "doing", priority := "P2",
    tags := [], created_at := "T", updated_at := "T", started_at := some "T",
    done_at := none, blocked_reason := none }

def c10_cand1 : JObj :=
  .cons "title" (.str "  alpha ") (.cons "status" (.str "done") .nil)

def c10_cand2 : JObj :=
  .cons "title" (.str "Beta") (.cons "status" (.str "done")
    (.cons "id" (.int 99) (.cons "blocked_reason" (.str "nope") .nil)))

def c10_new : Task :=
  { id := 5, title := "Beta", description := "", status := "todo", priority := "P2",
    tags := [], created_at := "N", updated_at := "N", started_at := none,
    done_at := none, blocked_reason := none }

/-- Claim C10 witness: a proposal whose normalized title collides with the
existing "Alpha" is skipped; the other proposal is appended with a fresh
id 5 and forced status todo, its supplied id 99, status "done" and
blocked_reason ignored. -/
theorem add_tasks_from_brief_spec_witness :
    (add_tasks_loop (["Alpha"].map _norm) 5 "N" [c10_cand1, c10_cand2]).1 = [c10_new]
    ∧ c10_new.status = "todo" ∧ c10_new.blocked_reason = none ∧ c10_new.id = 5
    ∧ (add_tasks_from_brief_merge [c10_tA] 5 [c10_cand1, c10_cand2] "N").1
        = [c10_tA, c10_new]
    ∧ _norm c10_new.title ∉ [c10_tA].map fun x => _norm x.title := by
  have h := add_tasks_from_brief_spec [c10_tA] 5 [c10_cand1, c10_cand2] "N"
  have hres : (add_tasks_loop ([c10_tA].map fun x => _norm x.title) 5 "N"
      [c10_cand1, c10_cand2]).1 = [c10_new] := by decide
  have hmem : c10_new ∈ (add_tasks_loop ([c10_tA].map fun x => _norm x.title) 5 "N"
      [c10_cand1, c10_cand2]).1 := by rw [hres]; exact List.mem_singleton.2 rfl
  obtain ⟨hs, hb, _, _, hcol⟩ := h.1 c10_new hmem
  exact ⟨by decide, hs, hb, by decide, by decide, hcol⟩

/-! ## Claim C4 -/

/-- Claim C4: the diff apply engine performs at most one repair retry.
For every provider, every pair of git subprocesses and every prompt:
at most two provider calls and two apply attempts happen; a second
provider call (the repair) happens only when the first apply attempt
failed with an error matching the invalid/corrupt-patch pattern; a first
apply failure that does not match the pattern propagates with no retry;
an extraction failure on the first attempt propagates with no apply and
no retry; and a failure of the second apply attempt propagates as the
final result (never a second repair). -/
theorem apply_task_repair_policy (llm : Nat → String → Except String String)
    (check run : String → ProcResult) (prompt : String) :
    (apply_task llm check run prompt).llm_calls ≤ 2
    ∧ (apply_task llm check run prompt).apply_calls ≤ 2
    ∧ ((apply_task llm check run prompt).llm_calls = 2 →
        ∃ e, (apply_task llm check run prompt).first_apply = some (.error e)
          ∧ _is_corrupt_patch_error e = true)
    ∧ (∀ e, (apply_task llm check run prompt).first_apply = some (.error e) →
        _is_corrupt_patch_error e = false →
          (apply_task llm check run prompt).result = .error e
            ∧ (apply_task llm check run prompt).llm_calls = 1
            ∧ (apply_task llm check run prompt).second_apply = none)
    ∧ (∀ raw1 e, _call_llm (llm 1 prompt) = .ok raw1 →
        _extract_unified_diff raw1 = .error e →
          (apply_task llm check run prompt).result = .error e
            ∧ (apply_task llm check run prompt).llm_calls = 1
            ∧ (apply_task llm check run prompt).apply_calls = 0)
    ∧ (∀ e2, (apply_task llm check run prompt).second_apply = some (.error e2) →
        (apply_task llm check run prompt).result = .error e2
          ∧ (apply_task llm check run prompt).apply_calls = 2) := by
  unfold apply_task
  rcases h1 : _call_llm (llm 1 prompt) with e | raw1
  · simp [h1]
  · rcases h2 : _extract_unified_diff raw1 with e | diff1
    · simp [h1, h2]
      intro r1 e1 hr he
      subst hr
      rw [h2] at he
      simpa using he
    · have hfin : ∀ (r1 e1 : String), raw1 = r1 → ¬_extract_unified_diff r1 = Except.error e1 := by
        intro r1 e1 hr
        subst hr
        rw [h2]
        simp
      rcases h3 : _git_apply check run diff1 with e | u
      · by_cases h4 : _is_corrupt_patch_error e = true
        · rcases h5 : _call_llm (llm 2 (_build_repair_prompt diff1 e)) with e2 | raw2
          · simp [h1, h2, h3, h4, h5]
            exact hfin
          · rcases h6 : _extract_unified_diff raw2 with e2 | diff2
            · simp [h1, h2, h3, h4, h5, h6]
              exact hfin
            · rcases h7 : _git_apply check run diff2 with e2 | u2
              · simp [h1, h2, h3, h4, h5, h6, h7]
                exact hfin
              · simp [h1, h2, h3, h4, h5, h6, h7]
                exact hfin
        · rw [Bool.not_eq_true] at h4
          simp [h1, h2, h3, h4]
          exact hfin
      · simp [h1, h2, h3]
        exact hfin

def c4_llm : Nat → String → Except String String :=
  fun n _ =>
    if n = 1 then .ok "diff --git a/f b/f\nbad hunk" else .ok "diff --git a/f b/f\ngood hunk"

def c4_check : String → ProcResult :=
  fun d =>
    if pyContains d "bad" then { returncode := 1, stdout := "", stderr := "error: corrupt patch" }
    else { returncode := 0, stdout := "", stderr := "" }

def c4_run : String → ProcResult :=
  fun _ => { returncode := 0, stdout := "", stderr := "" }

/-- Claim C4 witness: with a first diff that fails `git apply --check`
with a corrupt-patch error and a corrected second diff, exactly two
provider calls and two apply attempts happen, the first apply failure
matches the corrupt-patch pattern (per the theorem), and the run ends in
success on attempt 2. -/
theorem apply_task_repair_policy_witness :
    (apply_task c4_llm c4_check c4_run "p").llm_calls = 2
    ∧ (apply_task c4_llm c4_check c4_run "p").apply_calls = 2
    ∧ (∃ e, (apply_task c4_llm c4_check c4_run "p").first_apply = some (.error e)
        ∧ _is_corrupt_patch_error e = true)
    ∧ (apply_task c4_llm c4_check c4_run "p").result
        = .ok (ApplyResult.mk true true "Diff applied successfully (attempt 2).") := by
  have h := apply_task_repair_policy c4_llm c4_check c4_run "p"
  exact ⟨by decide, by decide, h.2.2.1 (by decide), by decide⟩

/-! ## Claims C6 and C2: the merge loop invariants -/

theorem _apply_update_id (old : Task) (upd : JObj) (now : String) :
    (_apply_update old upd now).id = old.id := rfl

theorem by_id_lookup_mem {existing : List Task} {tid : Int} {t : Task}
    (h : by_id_lookup existing tid = some t) : t ∈ existing ∧ t.id = tid := by
  unfold by_id_lookup at h
  have hmem := List.mem_of_find?_eq_some h
  have heq := List.find?_some h
  refine ⟨?_, by simpa using heq⟩
  exact (List.mem_filter.1 (List.mem_reverse.1 hmem)).1

theorem find_match_mem {existing : List Task} {s : String} {t : Task}
    (h : _find_match existing s = some t) : t ∈ existing :=
  List.mem_of_find?_eq_some h

theorem idMatchOf_mem {existing : List Task} {cand : JObj} {t : Task}
    (h : idMatchOf existing cand = some t) : t ∈ existing := by
  unfold idMatchOf at h
  rcases hc : candId cand with _ | n
  · rw [hc] at h; cases h
  · rw [hc] at h
    exact (by_id_lookup_mem h).1

theorem titleMatchOf_mem {existing : List Task} {s : String} {t : Task}
    (h : titleMatchOf existing s = some t) : t ∈ existing := by
  unfold titleMatchOf at h
  by_cases hs : s = ""
  · rw [if_pos hs] at h; cases h
  · rw [if_neg hs] at h
    exact find_match_mem h

/-- Each merge-loop iteration appends exactly one task, records its id
and normalized title in the seen sets, and either reuses an existing id
(counter unchanged) or allocates the current counter (incrementing it). -/
theorem merge_step_shape (existing : List Task) (now : String) (st : MergeState) (cand : JObj) :
    ∃ a : Task,
      (merge_step existing now st cand).merged = st.merged ++ [a]
      ∧ (merge_step existing now st cand).seen_ids = st.seen_ids ++ [a.id]
      ∧ (merge_step existing now st cand).seen_titles = st.seen_titles ++ [_norm a.title]
      ∧ ((∃ t ∈ existing, a.id = t.id)
            ∧ (merge_step existing now st cand).next_id = st.next_id
         ∨ a.id = st.next_id
            ∧ (merge_step existing now st cand).next_id = st.next_id + 1) := by
  unfold merge_step
  rcases hidm : idMatchOf existing cand with _ | old
  · rcases htm : titleMatchOf existing (candTitle cand) with _ | m
    · dsimp only
      exact ⟨newTaskFromCand cand (candTitle cand) st.next_id now,
        rfl, rfl, rfl, Or.inr ⟨rfl, rfl⟩⟩
    · dsimp only
      by_cases hin : (by_id_lookup existing m.id).isSome = true
      · rw [if_pos hin]
        refine ⟨_apply_update m cand now, rfl, ?_, rfl,
          Or.inl ⟨⟨m, titleMatchOf_mem htm, _apply_update_id m cand now⟩, rfl⟩⟩
        rw [_apply_update_id]
        rfl
      · rw [if_neg hin]
        exact ⟨newTaskFromCand cand (candTitle cand) st.next_id now,
          rfl, rfl, rfl, Or.inr ⟨rfl, rfl⟩⟩
  · dsimp only
    refine ⟨_apply_update old cand now, rfl, ?_, rfl,
      Or.inl ⟨⟨old, idMatchOf_mem hidm, _apply_update_id old cand now⟩, rfl⟩⟩
    rw [_apply_update_id]
    rfl

/-- Invariants of the merge fold: every seen id / seen normalized title
is realized by some merged task, every merged task either carries an
existing id or a freshly allocated one (at least the initial counter),
and the counter never goes below the initial one. -/
theorem merge_fold_inv (existing : List Task) (now : String) (n0 : Int) :
    ∀ (cands : List JObj) (st : MergeState),
      (∀ x ∈ st.seen_ids, ∃ u ∈ st.merged, u.id = x) →
      (∀ s ∈ st.seen_titles, ∃ u ∈ st.merged, _norm u.title = s) →
      (∀ u ∈ st.merged, (∃ t ∈ existing, u.id = t.id) ∨ n0 ≤ u.id) →
      n0 ≤ st.next_id →
      (∀ x ∈ (cands.foldl (merge_step existing now) st).seen_ids,
          ∃ u ∈ (cands.foldl (merge_step existing now) st).merged, u.id = x)
      ∧ (∀ s ∈ (cands.foldl (merge_step existing now) st).seen_titles,
          ∃ u ∈ (cands.foldl (merge_step existing now) st).merged, _norm u.title = s)
      ∧ (∀ u ∈ (cands.foldl (merge_step existing now) st).merged,
          (∃ t ∈ existing, u.id = t.id) ∨ n0 ≤ u.id)
      ∧ n0 ≤ (cands.foldl (merge_step existing now) st).next_id := by
  intro cands
  induction cands with
  | nil => exact fun st h1 h2 h3 h4 => ⟨h1, h2, h3, h4⟩
  | cons cand rest ih =>
    intro st h1 h2 h3 h4
    rw [List.foldl_cons]
    obtain ⟨a, hm, hsi, hst, hor⟩ := merge_step_shape existing now st cand
    apply ih
    · rw [hsi, hm]
      intro x hx
      rcases List.mem_append.1 hx with hx | hx
      · obtain ⟨u, hu, he⟩ := h1 x hx
        exact ⟨u, List.mem_append_left _ hu, he⟩
      · refine ⟨a, List.mem_append_right _ (List.mem_singleton.2 rfl), ?_⟩
        exact (List.mem_singleton.1 hx).symm
    · rw [hst, hm]
      intro s hs
      rcases List.mem_append.1 hs with hs | hs
      · obtain ⟨u, hu, he⟩ := h2 s hs
        exact ⟨u, List.mem_append_left _ hu, he⟩
      · refine ⟨a, List.mem_append_right _ (List.mem_singleton.2 rfl), ?_⟩
        exact (List.mem_singleton.1 hs).symm
    · rw [hm]
      intro u hu
      rcases List.mem_append.1 hu with hu | hu
      · exact h3 u hu
      · rw [List.mem_singleton.1 hu]
        rcases hor with ⟨he, _⟩ | ⟨he, _⟩
        · exact Or.inl he
        · exact Or.inr (he ▸ h4)
    · rcases hor with ⟨_, he⟩ | ⟨_, he⟩
      · exact he ▸ h4
      · rw [he]
        exact le_trans h4 (by omega)

/-- Allocation bound of the merge fold: under the precondition that every
existing id is below the initial counter, every merged task id stays
below the (monotonically growing) counter. -/
theorem merge_fold_bound (existing : List Task) (now : String) (n0 : Int)
    (hex : ∀ t ∈ existing, t.id < n0) :
    ∀ (cands : List JObj) (st : MergeState),
      (∀ u ∈ st.merged, u.id < st.next_id) →
      n0 ≤ st.next_id →
      (∀ u ∈ (cands.foldl (merge_step existing now) st).merged,
          u.id < (cands.foldl (merge_step existing now) st).next_id)
      ∧ n0 ≤ (cands.foldl (merge_step existing now) st).next_id := by
  intro cands
  induction cands with
  | nil => exact fun st h1 h2 => ⟨h1, h2⟩
  | cons cand rest ih =>
    intro st h1 h2
    rw [List.foldl_cons]
    obtain ⟨a, hm, _, _, hor⟩ := merge_step_shape existing now st cand
    apply ih
    · rw [hm]
      intro u hu
      rcases List.mem_append.1 hu with hu | hu
      · rcases hor with ⟨_, he⟩ | ⟨_, he⟩
        · exact he ▸ h1 u hu
        · rw [he]; exact lt_trans (h1 u hu) (by omega)
      · rw [List.mem_singleton.1 hu]
        rcases hor with ⟨⟨t, htmem, hid⟩, he⟩ | ⟨hid, he⟩
        · rw [he, hid]
          exact lt_of_lt_of_le (hex t htmem) h2
        · rw [he, hid]
          omega
    · rcases hor with ⟨_, he⟩ | ⟨_, he⟩
      · exact he ▸ h2
      · rw [he]; exact le_trans h2 (by omega)

theorem le_maxIdOf_foldl_init (l : List Task) :
    ∀ a : Int, a ≤ l.foldl (fun m u => max m u.id) a := by
  induction l with
  | nil => exact fun a => le_refl a
  | cons u rest ih =>
    intro a
    exact le_trans (le_max_left a u.id) (ih (max a u.id))

theorem le_maxIdOf_foldl_mem (l : List Task) :
    ∀ (a : Int) (t : Task), t ∈ l → t.id ≤ l.foldl (fun m u => max m u.id) a := by
  induction l with
  | nil => intro a t ht; cases ht
  | cons u rest ih =>
    intro a t ht
    rcases List.mem_cons.1 ht with rfl | ht
    · exact le_trans (le_max_right a t.id) (le_maxIdOf_foldl_init rest (max a t.id))
    · exact ih (max a u.id) t ht

theorem le_maxIdOf (l : List Task) (t : Task) (ht : t ∈ l) : t.id ≤ maxIdOf l := by
  cases l with
  | nil => cases ht
  | cons u rest =>
    rcases List.mem_cons.1 ht with rfl | ht
    · exact le_maxIdOf_foldl_init rest t.id
    · exact le_maxIdOf_foldl_mem rest u.id t ht

theorem lt_next_of_le_max {a m n : Int} (h : a ≤ m) :
    a < (if n ≤ m then m + 1 else n) := by
  split_ifs with hc
  · omega
  · omega

/-- Claim C6: after every load of a backlog document (an arbitrary JSON
object, legacy documents included) `next_id` strictly exceeds every task
id in the result; and the reconciler merge (both its normal path and its
invalid-tasks-JSON fallback) preserves that invariant. -/
theorem next_id_exceeds_every_task_id :
    (∀ (doc : JVal) (now : String) (p : TasksPayload),
      _load_tasks_payload doc now = .ok p → ∀ t ∈ p.tasks, t.id < p.next_id)
    ∧ (∀ (existing : List Task) (n0 : Int) (cands : List JObj) (now : String),
      (∀ t ∈ existing, t.id < n0) →
      ∀ t ∈ (plan_from_brief_merge existing n0 cands now).1,
        t.id < (plan_from_brief_merge existing n0 cands now).2)
    ∧ (∀ (existing : List Task) (n0 : Int) (now : String),
      (∀ t ∈ existing, t.id < n0) →
      ∀ t ∈ (plan_from_brief_fallback existing n0 now).1,
        t.id < (plan_from_brief_fallback existing n0 now).2) := by
  refine ⟨?_, ?_, ?_⟩
  · intro doc now p hp t ht
    cases doc with
    | obj kvs =>
      unfold _load_tasks_payload at hp
      simp only [Except.ok.injEq] at hp
      subst hp
      dsimp only at ht ⊢
      exact lt_next_of_le_max (le_maxIdOf _ t ht)
    | null => cases hp
    | bool b => cases hp
    | int n => cases hp
    | str s => cases hp
    | arr xs => cases hp
  · intro existing n0 cands now hex t ht
    unfold plan_from_brief_merge at ht ⊢
    obtain ⟨hb, hge⟩ := merge_fold_bound existing now n0 hex cands
      { merged := [], seen_ids := [], seen_titles := [], next_id := n0 }
      (by intro u hu; cases hu) (le_refl n0)
    rcases List.mem_append.1 ht with ht | ht
    · exact hb t ht
    · have := (List.mem_filter.1 ht).1
      exact lt_of_lt_of_le (hex t this) hge
  · intro existing n0 now hex t ht
    unfold plan_from_brief_fallback at ht ⊢
    rcases hf : _find_match existing "Fix plan output" with _ | m
    · rw [hf] at ht
      dsimp only at ht ⊢
      rcases List.mem_append.1 ht with ht | ht
      · exact lt_trans (hex t ht) (by omega)
      · rw [List.mem_singleton.1 ht]
        show (n0 : Int) < n0 + 1
        omega
    · rw [hf] at ht
      dsimp only at ht ⊢
      exact hex t ht

def c6_task : Task :=
  { id := 7, title := "legacy", description := "", status := "todo", priority := "P2",
    tags := [], created_at := "T", updated_at := "T", started_at := none,
    done_at := none, blocked_reason := none }

def c6_doc : JVal :=
  .obj (.cons "tasks" (.arr (.cons (.obj c6_task.to_dict) .nil)) .nil)

/-- Claim C6 witness: loading a legacy document (no version/next_id
fields) holding one task with id 7 recomputes `next_id = 8 > 7`, and a
merge over that backlog that adds one fresh task keeps every id below
the final counter. -/
theorem next_id_exceeds_every_task_id_witness :
    _load_tasks_payload c6_doc "N" = .ok ⟨1, 8, [c6_task]⟩
    ∧ (∀ t ∈ ([c6_task] : List Task), t.id < (8 : Int))
    ∧ (∀ t ∈ (plan_from_brief_merge [c6_task] 8
        [JObj.cons "title" (.str "Fresh work") .nil] "N").1,
        t.id < (plan_from_brief_merge [c6_task] 8
          [JObj.cons "title" (.str "Fresh work") .nil] "N").2) := by
  refine ⟨by decide, ?_, ?_⟩
  · exact next_id_exceeds_every_task_id.1 c6_doc "N" ⟨1, 8, [c6_task]⟩ (by decide)
  · exact next_id_exceeds_every_task_id.2.1 [c6_task] 8
      [JObj.cons "title" (.str "Fresh work") .nil] "N" (by decide)

/-! ## Claim C2 -/

def c2_e1 : Task :=
  { id := 1, title := "Write docs", description := "", status := "todo", priority := "P2",
    tags := [], created_at := "T", updated_at := "T", started_at := none,
    done_at := none, blocked_reason := none }

def c2_e2 : Task :=
  { id := 2, title := "Fix CI", description := "", status := "doing", priority := "P1",
    tags := [], created_at := "T", updated_at := "T", started_at := some "T",
    done_at := none, blocked_reason := none }

def c2_cand : JObj :=
  .cons "id" (.int 1) (.cons "title" (.str "Fix CI") .nil)

/-- Claim C2 counterexample: the proposal renames task 1 to the title of
the unreferenced task 2, so the leftover carry-over drops task 2 (its
normalized title is in `seen_titles`): no task with id 2 appears in the
merged output, refuting "every existing task appears in the output". -/
theorem c2_counterexample :
    c2_e2 ∈ [c2_e1, c2_e2]
    ∧ ∀ u ∈ (plan_from_brief_merge [c2_e1, c2_e2] 3 [c2_cand] "N").1,
        u.id ≠ c2_e2.id := by
  decide

/-- Claim C2 (amended): for every existing task the merged output
contains a task with the same id or one with the same normalized title
(an unmatched existing task whose normalized title equals a merged
task's title is dropped rather than carried over); and the output
consists exactly of tasks carrying an existing id plus new tasks whose
ids are fresh (at least the initial counter). -/
theorem plan_merge_nondestructive (existing : List Task) (n0 : Int)
    (cands : List JObj) (now : String) :
    (∀ t ∈ existing, ∃ u ∈ (plan_from_brief_merge existing n0 cands now).1,
        u.id = t.id ∨ _norm u.title = _norm t.title)
    ∧ (∀ u ∈ (plan_from_brief_merge existing n0 cands now).1,
        (∃ t ∈ existing, u.id = t.id) ∨ n0 ≤ u.id) := by
  obtain ⟨hids, htitles, hclose, _⟩ := merge_fold_inv existing now n0 cands
    { merged := [], seen_ids := [], seen_titles := [], next_id := n0 }
    (by intro x hx; cases hx) (by intro s hs; cases hs)
    (by intro u hu; cases hu) (le_refl n0)
  unfold plan_from_brief_merge
  dsimp only
  constructor
  · intro t htmem
    by_cases hid : t.id ∈ (cands.foldl (merge_step existing now)
        { merged := [], seen_ids := [], seen_titles := [], next_id := n0 }).seen_ids
    · obtain ⟨u, hu, he⟩ := hids t.id hid
      exact ⟨u, List.mem_append_left _ hu, Or.inl he⟩
    · by_cases hti : _norm t.title ∈ (cands.foldl (merge_step existing now)
          { merged := [], seen_ids := [], seen_titles := [], next_id := n0 }).seen_titles
      · obtain ⟨u, hu, he⟩ := htitles _ hti
        exact ⟨u, List.mem_append_left _ hu, Or.inr he⟩
      · refine ⟨t, List.mem_append_right _ ?_, Or.inl rfl⟩
        rw [List.mem_filter]
        exact ⟨htmem, by simp [hid, hti]⟩
  · intro u hu
    rcases List.mem_append.1 hu with hu | hu
    · exact hclose u hu
    · exact Or.inl ⟨u, (List.mem_filter.1 hu).1, rfl⟩

/-- Claim C2 witness: in the counterexample backlog the dropped task 2 is
still represented in the output through the merged task that took over
its title. -/
theorem plan_merge_nondestructive_witness :
    ∃ u ∈ (plan_from_brief_merge [c2_e1, c2_e2] 3 [c2_cand] "N").1,
      u.id = c2_e2.id ∨ _norm u.title = _norm c2_e2.title :=
  (plan_merge_nondestructive [c2_e1, c2_e2] 3 [c2_cand] "N").1 c2_e2
    (by decide)

/-! ## Claim C3 -/

def c3_cand : JObj :=
  .cons "title" (.str "New blocked work") (.cons "status" (.str "blocked") .nil)

/-- Claim C3 counterexample: a proposal for a genuinely new task that
supplies status "blocked" and no reason produces a merged task with
`status = blocked` and `blocked_reason = None` — the new-task branch
never substitutes a default reason, refuting the claimed invariant for
"every task produced by the reconciler merge". -/
theorem c3_counterexample :
    ∃ u ∈ (plan_from_brief_merge [] 1 [c3_cand] "N").1,
      u.status = "blocked" ∧ u.blocked_reason = none := by
  decide

/-- Claim C3 (amended): for a *matched* task, `_apply_update` gives a
transition into blocked a non-empty reason (the default "Blocked" when
the proposal and the old task supply none), clears the reason on
transitions into done or todo, and keeps the old reason when the status
does not change; but a transition into any other status (doing,
skipped) keeps a possibly stale reason, and newly created tasks take
status and blocked_reason independently from the proposal, so the
blocked-iff-nonempty-reason invariant does not hold for every produced
task. -/
theorem apply_update_blocked_reason_policy (old : Task) (upd : JObj) (now : String) :
    ((_apply_update old upd now).status ≠ old.status →
      (_apply_update old upd now).status = "blocked" →
        ∃ r, (_apply_update old upd now).blocked_reason = some r ∧ r ≠ "")
    ∧ ((_apply_update old upd now).status ≠ old.status →
      (_apply_update old upd now).status = "done" →
        (_apply_update old upd now).blocked_reason = none)
    ∧ ((_apply_update old upd now).status ≠ old.status →
      (_apply_update old upd now).status = "todo" →
        (_apply_update old upd now).blocked_reason = none)
    ∧ ((_apply_update old upd now).status = old.status →
      (_apply_update old upd now).blocked_reason = old.blocked_reason)
    ∧ ((_apply_update old upd now).status ≠ old.status →
      (_apply_update old upd now).status ≠ "blocked" →
      (_apply_update old upd now).status ≠ "done" →
      (_apply_update old upd now).status ≠ "todo" →
        (_apply_update old upd now).blocked_reason = old.blocked_reason) := by
  unfold _apply_update
  dsimp only
  by_cases hc : _clamp_status (match objGet upd "status" with
      | some v => pyStr v | none => old.status) = old.status
  · rw [if_pos hc]
    refine ⟨fun h => absurd rfl h, fun h => absurd rfl h, fun h => absurd rfl h,
      fun _ => ?_, fun h => absurd rfl h⟩
    have hfalse : ¬ (old.status ≠ old.status) := fun h => h rfl
    rw [if_neg (fun hx => hfalse hx.1), if_neg (fun hx => hfalse hx.1),
      if_neg (fun hx => hfalse hx.1)]
  · rw [if_neg hc]
    refine ⟨?_, ?_, ?_, fun h => absurd h hc, ?_⟩
    · intro h hb
      rw [hb] at h ⊢
      have hob : old.status ≠ "blocked" := fun e => h e.symm
      rw [if_neg (fun hx => absurd hx.2 (by decide)), if_pos ⟨hob, rfl⟩]
      by_cases hm : mergeBlockedReason upd old.blocked_reason = ""
      · exact ⟨"Blocked", by rw [if_pos hm], by decide⟩
      · exact ⟨mergeBlockedReason upd old.blocked_reason, by rw [if_neg hm], hm⟩
    · intro h hd
      rw [hd] at h ⊢
      have hod : old.status ≠ "done" := fun e => h e.symm
      rw [if_pos ⟨hod, rfl⟩]
    · intro h ht
      rw [ht] at h ⊢
      have hot : old.status ≠ "todo" := fun e => h e.symm
      rw [if_neg (fun hx => absurd hx.2 (by decide)), if_neg (fun hx => absurd hx.2 (by decide)),
        if_pos ⟨hot, rfl⟩]
    · intro _ hnb hnd hnt
      rw [if_neg (fun hx => hnd hx.2), if_neg (fun hx => hnb hx.2),
        if_neg (fun hx => hnt hx.2)]

def c3_old : Task :=
  { id := 3, title := "Waiting work", description := "", status := "todo", priority := "P2",
    tags := [], created_at := "T", updated_at := "T", started_at := none,
    done_at := none, blocked_reason := none }

def c3_upd : JObj :=
  .cons "status" (.str "blocked") .nil

/-- Claim C3 witness: a matched task forced into blocked by a proposal
that omits the reason gets the non-empty default "Blocked". -/
theorem apply_update_blocked_reason_policy_witness :
    (_apply_update c3_old c3_upd "N").status = "blocked"
    ∧ (∃ r, (_apply_update c3_old c3_upd "N").blocked_reason = some r ∧ r ≠ "")
    ∧ (_apply_update c3_old c3_upd "N").blocked_reason = some "Blocked" := by
  have h := (apply_update_blocked_reason_policy c3_old c3_upd "N").1 (by decide) (by decide)
  exact ⟨by decide, h, by decide⟩

/-! ## Claim C5 -/

theorem JArr.toList_ofList (l : List JVal) : (JArr.ofList l).toList = l := by
  induction l with
  | nil => rfl
  | cons v rest ih => simp [JArr.ofList, JArr.toList, ih]

def validStatusesSpec : List String := ["todo", "doing", "review", "blocked", "done", "skipped"]

def validStatusesLoad : List String := ["todo", "doing", "blocked", "done", "skipped"]

def validPriorities : List String := ["P1", "P2", "P3"]

/-- Modelled from the claim and the data model of the spec (section 3):
statuses drawn from the documented six-status set, priorities P1-P3,
`blocked_reason` non-empty iff blocked, `done_at` set iff done. -/
def TaskWFSpec (t : Task) : Prop :=
  t.status ∈ validStatusesSpec ∧ t.priority ∈ validPriorities
  ∧ (optTruthy t.blocked_reason = true ↔ t.status = "blocked")
  ∧ (t.done_at ≠ none ↔ t.status = "done")

/-- The claim's well-formed backlog: consistent tasks, integer ids, and
`next_id` exceeding every task id. -/
def BacklogWFSpec (p : TasksPayload) : Prop :=
  (∀ t ∈ p.tasks, TaskWFSpec t) ∧ (∀ t ∈ p.tasks, t.id < p.next_id)

instance (t : Task) : Decidable (TaskWFSpec t) := by
  unfold TaskWFSpec; infer_instance

instance (p : TasksPayload) : Decidable (BacklogWFSpec p) := by
  unfold BacklogWFSpec; infer_instance

def c5_rev : Task :=
  { id := 1, title := "Review the PR", description := "", status := "review",
    priority := "P1", tags := [], created_at := "T1", updated_at := "T2",
    started_at := some "T1", done_at := none, blocked_reason := none }

def c5_payload : TasksPayload := { version := 1, next_id := 2, tasks := [c5_rev] }

/-- Claim C5 counterexample: a backlog holding one task with the
documented status "review" (which the runner itself writes) is
well-formed in the claim's sense, yet `load(save(...))` is not the
identity on it: `_clamp_status` does not recognize "review" and the
loaded task comes back as "todo". -/
theorem c5_counterexample :
    BacklogWFSpec c5_payload
    ∧ _load_tasks_payload
        (_save_tasks_payload c5_payload.version c5_payload.next_id c5_payload.tasks) "NOW"
        ≠ .ok c5_payload := by
  decide

/-- The amended well-formedness: fields in the loader's normal form —
status in the loader's five-status set (`review` excluded), priority
P1-P3, title and description whitespace-trimmed, non-empty timestamps,
and no empty-string optional fields (plus `next_id` above every id, with
`maxIdOf` covering the empty backlog). -/
def TaskWFNorm (t : Task) : Prop :=
  t.status ∈ validStatusesLoad ∧ t.priority ∈ validPriorities
  ∧ pystrip t.title = t.title ∧ pystrip t.description = t.description
  ∧ t.created_at ≠ "" ∧ t.updated_at ≠ ""
  ∧ t.started_at ≠ some "" ∧ t.done_at ≠ some "" ∧ t.blocked_reason ≠ some ""

def BacklogWFNorm (p : TasksPayload) : Prop :=
  (∀ t ∈ p.tasks, TaskWFNorm t) ∧ maxIdOf p.tasks < p.next_id

instance (t : Task) : Decidable (TaskWFNorm t) := by
  unfold TaskWFNorm; infer_instance

instance (p : TasksPayload) : Decidable (BacklogWFNorm p) := by
  unfold BacklogWFNorm; infer_instance

theorem clamp_status_fixed (s : String) (h : s ∈ validStatusesLoad) :
    _clamp_status s = s := by
  simp only [validStatusesLoad, List.mem_cons, List.mem_singleton,
    List.not_mem_nil, or_false] at h
  rcases h with rfl | rfl | rfl | rfl | rfl <;> decide

theorem clamp_priority_fixed (s : String) (h : s ∈ validPriorities) :
    _clamp_priority s = s := by
  simp only [validPriorities, List.mem_cons, List.mem_singleton,
    List.not_mem_nil, or_false] at h
  rcases h with rfl | rfl | rfl <;> decide

theorem pyStr_str (s : String) : pyStr (.str s) = s := rfl

theorem safe_list_str (l : List String) :
    _safe_list (some (.arr (JArr.ofList (l.map JVal.str)))) = l := by
  show ((JArr.ofList (l.map JVal.str)).toList).map pyStr = l
  rw [JArr.toList_ofList, List.map_map]
  calc l.map (pyStr ∘ JVal.str) = l.map id := List.map_congr_left fun s _ => rfl
    _ = l := List.map_id l

theorem coerceOptStr_optStr (o : Option String) (h : o ≠ some "") :
    coerceOptStr (some (optStr o)) = o := by
  cases o with
  | none => rfl
  | some s =>
    have hs : s ≠ "" := fun e => h (by rw [e])
    simp [coerceOptStr, optStr, pyTruthy, hs, pyStr_str]

/-- One task survives the save/load round trip when it is in the
loader's normal form. -/
theorem task_from_any_to_dict (t : Task) (h : TaskWFNorm t) (now : String) :
    _task_from_any t.to_dict now = t := by
  obtain ⟨hs, hp, hti, hde, hca, hua, hsa, hda, hbr⟩ := h
  unfold _task_from_any Task.to_dict
  simp [objGet, objGetD, Task.mk.injEq, coerceId, pyStr_str, pyTruthy,
    coerceOptStr_optStr _ hsa, coerceOptStr_optStr _ hda, coerceOptStr_optStr _ hbr,
    hca, hua, hti, hde, clamp_status_fixed t.status hs,
    clamp_priority_fixed t.priority hp, safe_list_str]

theorem filterMap_obj_to_dict (l : List Task) (now : String)
    (h : ∀ t ∈ l, TaskWFNorm t) :
    l.filterMap ((fun x => match x with
        | JVal.obj d => some (_task_from_any d now)
        | _ => none) ∘ fun t => JVal.obj t.to_dict) = l := by
  induction l with
  | nil => rfl
  | cons t rest ih =>
    have ht := task_from_any_to_dict t (h t (List.mem_cons_self t rest)) now
    simp only [List.filterMap_cons, Function.comp_apply]
    rw [ht, ih fun u hu => h u (List.mem_cons_of_mem _ hu)]

/-- Claim C5 (amended): for every backlog in the loader's normal form,
saving and loading is the identity: `load(save(backlog)) = backlog`. -/
theorem load_save_roundtrip (p : TasksPayload) (h : BacklogWFNorm p) (now : String) :
    _load_tasks_payload (_save_tasks_payload p.version p.next_id p.tasks) now = .ok p := by
  obtain ⟨htasks, hnext⟩ := h
  unfold _save_tasks_payload _load_tasks_payload
  simp only [objGet, objGetD, String.reduceEq, if_true, if_false, reduceIte]
  rw [JArr.toList_ofList, List.filterMap_map, filterMap_obj_to_dict p.tasks now htasks,
    if_neg (by omega)]

def c5_blocked : Task :=
  { id := 4, title := "Stuck work", description := "needs credentials",
    status := "blocked", priority := "P1", tags := ["infra"], created_at := "T1",
    updated_at := "T3", started_at := some "T2", done_at := none,
    blocked_reason := some "missing OpenAI API key" }

def c5_done : Task :=
  { id := 9, title := "Shipped work", description := "", status := "done",
    priority := "P3", tags := [], created_at := "T1", updated_at := "T4",
    started_at := some "T2", done_at := some "T4", blocked_reason := none }

def c5_wf : TasksPayload := { version := 3, next_id := 10, tasks := [c5_blocked, c5_done] }

/-- Claim C5 witness: a concrete two-task normal-form backlog round-trips
exactly. -/
theorem load_save_roundtrip_witness :
    BacklogWFNorm c5_wf
    ∧ _load_tasks_payload (_save_tasks_payload c5_wf.version c5_wf.next_id c5_wf.tasks) "NOW"
        = .ok c5_wf :=
  ⟨by decide, load_save_roundtrip c5_wf (by decide) "NOW"⟩

/-! ## Claim C9 -/

/-- Claim C9 counterexample: a document whose `tasks` field is the string
"nope", and one whose entries are not objects, both load successfully
into a usable empty backlog — silently repaired, with no failure. -/
theorem c9_counterexample :
    _load_tasks_payload (.obj (.cons "tasks" (.str "nope") .nil)) "N"
      = .ok { version := 1, next_id := 1, tasks := [] }
    ∧ _load_tasks_payload
        (.obj (.cons "tasks" (.arr (.cons (.int 5) (.cons (.str "x") .nil))) .nil)) "N"
      = .ok { version := 1, next_id := 1, tasks := [] } := by
  decide

/-- Claim C9 (amended): a malformed document fails only at the outer
boundary — invalid JSON makes the parser raise, and a document that is
valid JSON but not an object fails on attribute access; but every JSON
*object* loads successfully: a non-list `tasks` field is treated as an
empty task list and non-object entries are skipped, i.e. structural
damage inside an object document is silently repaired, not rejected. -/
theorem load_tasks_payload_error_policy :
    (∀ (kvs : JObj) (now : String), ∃ p, _load_tasks_payload (.obj kvs) now = .ok p)
    ∧ (∀ (doc : JVal) (now : String), (∀ kvs, doc ≠ .obj kvs) →
        ∃ e, _load_tasks_payload doc now = .error e) := by
  constructor
  · intro kvs now
    exact ⟨_, rfl⟩
  · intro doc now hne
    cases doc with
    | obj kvs => exact absurd rfl (hne kvs)
    | null => exact ⟨_, rfl⟩
    | bool b => exact ⟨_, rfl⟩
    | int n => exact ⟨_, rfl⟩
    | str s => exact ⟨_, rfl⟩
    | arr xs => exact ⟨_, rfl⟩

/-- Claim C9 witness: the repaired object document loads to some payload,
and a JSON array document errors. -/
theorem load_tasks_payload_error_policy_witness :
    (∃ p, _load_tasks_payload (.obj (.cons "tasks" (.str "nope") .nil)) "N" = .ok p)
    ∧ ∃ e, _load_tasks_payload (.arr .nil) "N" = .error e :=
  ⟨load_tasks_payload_error_policy.1 (.cons "tasks" (.str "nope") .nil) "N",
   load_tasks_payload_error_policy.2 (.arr .nil) "N" (fun _ h => JVal.noConfusion h)⟩

end Tanuki
